import Mathlib

/-!
# Verification of the auto-poster distribution engine

Shallow embedding of the control logic of `auto_poster.py`,
`fb_chunk_upload.py` and `tiktok_poster.py`.  External effects (S3 calls,
HTTP requests, the local file) are modelled as explicit environment values;
the Lean definitions mirror the Python control flow over those environments.
-/

namespace AutoPoster

/-! ## String helpers

`os.path.basename`, Python's substring test (`today_str in basename`) and
the `\d{4}-\d{2}-\d{2}` regex search, modelled over character lists.
Python's `\d` is modelled as an ASCII digit (all keys in this system are
ASCII).
-/

/-- `os.path.basename`: the part of the key after the last `/`. -/
def basename (s : String) : String :=
  String.mk ((s.toList.reverse.takeWhile (fun c => c != '/')).reverse)

/-- Does `h` start with `p`?  (Helper for the substring test.) -/
def listLeadsWith : List Char → List Char → Bool
  | [], _ => true
  | _ :: _, [] => false
  | a :: as, b :: bs => a == b && listLeadsWith as bs

/-- Python's `pat in hay` substring containment on char lists. -/
def listContainsSub (pat : List Char) : List Char → Bool
  | [] => listLeadsWith pat []
  | c :: t => listLeadsWith pat (c :: t) || listContainsSub pat t

/-- Python's `pat in hay` substring containment on strings. -/
def strContainsSub (hay pat : String) : Bool :=
  listContainsSub pat.toList hay.toList

/-- Does the char list start with the 10-char shape `\d{4}-\d{2}-\d{2}`? -/
def dateShape : List Char → Bool
  | a :: b :: c :: d :: e :: f :: g :: h :: i :: j :: _ =>
      a.isDigit && b.isDigit && c.isDigit && d.isDigit && e == '-' &&
      f.isDigit && g.isDigit && h == '-' && i.isDigit && j.isDigit
  | _ => false

/-- `re.search(r"\d{4}-\d{2}-\d{2}", s)`: leftmost 10-char date token. -/
def findDateTok : List Char → Option String
  | [] => none
  | c :: t =>
      if dateShape (c :: t) then some (String.mk ((c :: t).take 10))
      else findDateTok t

/-- Python `s.endswith(suf)` on strings. -/
def strEndsWith (s suf : String) : Bool :=
  listLeadsWith suf.toList.reverse s.toList.reverse

/-- ASCII lower-casing of one character (Python `str.lower`; all keys in
    this system are ASCII). -/
def lowerChar (c : Char) : Char :=
  if 'A' ≤ c && c ≤ 'Z' then Char.ofNat (c.toNat + 32) else c

/-- Python `s.lower()`. -/
def lowerStr (s : String) : String :=
  String.mk (s.toList.map lowerChar)

/-- `re.sub(r"\.mp4$", "", s)`: strip a trailing literal `.mp4`. -/
def stripMp4 (s : String) : String :=
  if strEndsWith s ".mp4" then String.mk ((s.toList.reverse.drop 4).reverse)
  else s

/-! ## Metadata extraction (`parse_metadata_from_key`) -/

structure Metadata where
  title : String
  caption : String
  date : String
  deriving DecidableEq, Repr

/-- `parse_metadata_from_key(key)`; `today` is the value of
`str(date.today())` used in the no-match fallback. -/
def parse_metadata_from_key (key today : String) : Metadata :=
  let base := basename key
  let fdate := (findDateTok base.toList).getD today
  let title := stripMp4 base
  { title := title, caption := title ++ " | " ++ fdate, date := fdate }

/-! ## S3 store model and the artifact selector (`get_latest_video_key`)

An S3 listing is a sequence of pages; `list_objects_v2` without a
continuation token returns page 0, and a response `IsTruncated` flag is
set exactly when a later page exists.  A missing `Contents` key is
modelled as an empty page.
-/

structure S3Obj where
  key : String
  lastModified : Nat
  deriving DecidableEq, Repr

/-- The paginated result of listing the bucket under a given S3 key
    path: page `i` is served by the `i`-th `list_objects_v2` call. -/
structure PageStore where
  pages : List (List S3Obj)
  deriving DecidableEq, Repr

/-- Code-point lexicographic `<` on char lists. -/
def listLtChars : List Char → List Char → Bool
  | [], [] => false
  | [], _ :: _ => true
  | _ :: _, [] => false
  | a :: as, b :: bs => if a == b then listLtChars as bs else decide (a < b)

/-- Ordering used by Python `list.sort()` on strings (code-point
    lexicographic). -/
def strLe (a b : String) : Bool := listLtChars a.toList b.toList || a == b

/-- Insertion into a sorted list of strings. -/
def insertStr (x : String) : List String → List String
  | [] => [x]
  | y :: ys => if strLe x y then x :: y :: ys else y :: insertStr x ys

/-- `list.sort()` on strings (stable; same result as any sort). -/
def sortStr : List String → List String
  | [] => []
  | x :: xs => insertStr x (sortStr xs)

/-- The `mp4s_today` list of `get_latest_video_key`: the listed keys
    ending in `.mp4` (case-insensitively) whose basename contains
    today's date token. -/
def todays_mp4s (contents : List S3Obj) (today : String) : List String :=
  ((contents.map S3Obj.key).filter
      (fun k => strEndsWith (lowerStr k) ".mp4")).filter
    (fun k => strContainsSub (basename k) today)

/-- `get_latest_video_key(prefix)`.  The function issues a single
`list_objects_v2` call (page 0 of the store, no continuation-token loop),
keeps the `.mp4` keys, keeps those whose basename contains today's date
token, and returns the lexicographically last one; it returns `none`
when no key has today's token. -/
def get_latest_video_key (store : PageStore) (today : String) : Option String :=
  if (store.pages.headD []).isEmpty then none
  else if (todays_mp4s (store.pages.headD []) today).isEmpty then none
  else some ((sortStr (todays_mp4s (store.pages.headD []) today)).getLastD "")

/-- The most-recently-modified object of a candidate list (greatest
    `lastModified`; the earlier object on ties). -/
def mostRecentlyModified : List S3Obj → Option S3Obj
  | [] => none
  | o :: rest =>
      match mostRecentlyModified rest with
      | none => some o
      | some b => if o.lastModified < b.lastModified then some b else some o

/-- Selector behaviour as the spec's words state it — the refinement
    target claim C2 compares the source's selector against, not code of
    the repository: keep the `.mp4` candidates; prefer one whose
    identifier contains today's date token (lexicographically greatest
    on ties, per the spec's tie-break); when none match, fall back to
    the most-recently-modified `.mp4` candidate. -/
def select_latest_mode_spec (contents : List S3Obj) (today : String) :
    Option String :=
  let mp4s := contents.filter (fun o => strEndsWith (lowerStr o.key) ".mp4")
  let todays := (mp4s.map S3Obj.key).filter
    (fun k => strContainsSub (basename k) today)
  if todays.isEmpty then (mostRecentlyModified mp4s).map S3Obj.key
  else some ((sortStr todays).getLastD "")

/-! ## Cleanup of archived objects (`cleanup_posted_objects`)

The cleanup loop repeats `list_objects_v2`, follows `NextContinuationToken`
while `IsTruncated`, and deletes every listed object whose `LastModified`
is before the cutoff.  Timestamps are modelled as `Nat`; the cutoff is the
value `now - retention` computed by the caller.  The result is the list of
deleted keys in deletion order. -/

/-- One `while True` pass of `cleanup_posted_objects` over the remaining
    pages: delete the old objects of each page, then follow the
    continuation token to the next page until `IsTruncated` is false. -/
def cleanup_pages (cutoff : Nat) : List (List S3Obj) → List String
  | [] => []
  | pg :: rest =>
      ((pg.filter (fun o => o.lastModified < cutoff)).map S3Obj.key)
        ++ cleanup_pages cutoff rest

/-- `cleanup_posted_objects(max_age_hours)`: drains every page of the
    `posted/` listing, deleting each object older than the cutoff. -/
def cleanup_posted_objects (store : PageStore) (cutoff : Nat) : List String :=
  cleanup_pages cutoff store.pages

/-! ## YouTube upload retry loop (`upload_to_youtube`)

The attempt loop of `upload_to_youtube`: attempt `n` either completes
with a response carrying an `id` (return `True`), completes with a
response lacking an `id` (return `False` immediately), or raises.  A
raised exception is caught; when attempts remain the loop sleeps and
retries, otherwise it returns `False`.  The model returns the verdict
together with the number of attempts that invoked the operation. -/

inductive YTAttempt where
  /-- upload completed, response contains `id` -/
  | ok
  /-- upload completed, response lacks `id` -/
  | bad
  /-- the attempt raised an exception -/
  | exn
  deriving DecidableEq, Repr

/-- The `for attempt in range(1, maxRetries+1)` body of
    `upload_to_youtube`, at attempt number `attempt` with `remaining`
    attempts left (including this one); `remaining = 0` is the loop
    falling through to the final `return False`.  `remaining = 1` is the
    `attempt >= MAX_YT_RETRIES` give-up test of the except branch. -/
def yt_loop (results : Nat → YTAttempt) (attempt : Nat) :
    Nat → Bool × Nat
  | 0 => (false, attempt - 1)
  | remaining + 1 =>
      match results attempt with
      | .ok => (true, attempt)
      | .bad => (false, attempt)
      | .exn =>
          if remaining == 0 then (false, attempt)
          else yt_loop results (attempt + 1) remaining

/-- The retry portion of `upload_to_youtube` (`MAX_YT_RETRIES` attempts):
    verdict and number of invocations of the upload operation. -/
def upload_to_youtube_retry (results : Nat → YTAttempt) (maxRetries : Nat) :
    Bool × Nat :=
  yt_loop results 1 maxRetries

/-! ## Slot runner (`run_slot`) -/

/-- One entry of the `SLOTS` table. -/
structure Slot where
  name : String
  /-- `"short"` or `"standard"` -/
  type : String
  /-- source location under the bucket -/
  srcLoc : String
  post_youtube : Bool
  post_facebook : Bool
  post_instagram : Bool
  post_tiktok : Bool
  deriving DecidableEq, Repr

/-- The `SLOTS` configuration table of `auto_poster.py`. -/
def SLOTS : List Slot :=
  [ { name := "reel_9am", type := "short",
      srcLoc := "reels n shorts/9am content/",
      post_youtube := true, post_facebook := true,
      post_instagram := true, post_tiktok := true },
    { name := "reel_4pm", type := "short",
      srcLoc := "reels n shorts/4pm content/",
      post_youtube := true, post_facebook := true,
      post_instagram := true, post_tiktok := true },
    { name := "std_9_30am", type := "standard",
      srcLoc := "standard videos/9:30am content/",
      post_youtube := true, post_facebook := true,
      post_instagram := true, post_tiktok := true },
    { name := "std_4_30pm", type := "standard",
      srcLoc := "standard videos/4:30pm content/",
      post_youtube := true, post_facebook := true,
      post_instagram := true, post_tiktok := true } ]

/-- Outcome of `archive_s3_object` (copy to `posted/<key>`, then delete
    the original): either both calls succeed, the copy raises (nothing
    happens), or the delete raises (the copy stands). -/
inductive ArchiveOutcome where
  | ok
  | copyFail
  | deleteFail
  deriving DecidableEq, Repr

/-- External behaviour a single `run_slot` call observes: the selected
    candidate (result of `get_latest_video_key`), the verdict of each
    destination adapter when invoked, and the outcome of
    `archive_s3_object` when invoked. -/
structure SlotEnv where
  candidate : Option String
  ytResult : Bool
  fbResult : Bool
  igResult : Bool
  ttResult : Bool
  archiveRes : ArchiveOutcome
  deriving DecidableEq, Repr

/-- `run_slot`'s terminal status. -/
inductive SlotStatus where
  | SUCCESS
  | FAILED
  | SKIPPED
  deriving DecidableEq, Repr

/-- Observable effects of one `run_slot` call. -/
structure SlotEffects where
  /-- destinations whose upload adapter was invoked, in program order -/
  attempted : List String
  /-- `archive_s3_object` was called -/
  archiveAttempted : Bool
  /-- the object was copied to `posted/<key>` -/
  copied : Bool
  /-- the original object was deleted -/
  deleted : Bool
  deriving DecidableEq, Repr

/-- (copied, deleted) effects of one `archive_s3_object` call. -/
def archiveEffects : ArchiveOutcome → Bool × Bool
  | .ok => (true, true)
  | .copyFail => (false, false)
  | .deleteFail => (true, false)

/-- `all_ok` after the four destination blocks of `run_slot`: every
    destination requested by the slot and globally enabled returned
    `True`. -/
def enabledAllOk (slot : Slot) (yt fb ig tt : Bool) (env : SlotEnv) : Bool :=
  (!(slot.post_youtube && yt) || env.ytResult) &&
  (!(slot.post_facebook && fb) || env.fbResult) &&
  (!(slot.post_instagram && ig) || env.igResult) &&
  (!(slot.post_tiktok && tt) || env.ttResult)

/-- Destination adapters invoked by `run_slot`, in program order. -/
def attemptedDests (slot : Slot) (yt fb ig tt : Bool) : List String :=
  (if slot.post_youtube && yt then ["youtube"] else []) ++
  (if slot.post_facebook && fb then ["facebook"] else []) ++
  (if slot.post_instagram && ig then ["instagram"] else []) ++
  (if slot.post_tiktok && tt then ["tiktok"] else [])

/-- `run_slot(slot, yt_enabled, fb_enabled, ig_enabled, tiktok_enabled)`:
    select the candidate (SKIPPED when none), run every requested and
    globally enabled destination, and archive the object iff all of them
    succeeded; an archive error downgrades the verdict to FAILED. -/
def run_slot (slot : Slot) (yt fb ig tt : Bool) (env : SlotEnv) :
    SlotStatus × SlotEffects :=
  match env.candidate with
  | none => (.SKIPPED, ⟨[], false, false, false⟩)
  | some _ =>
      let att := attemptedDests slot yt fb ig tt
      if enabledAllOk slot yt fb ig tt env then
        match env.archiveRes with
        | .ok => (.SUCCESS, ⟨att, true, true, true⟩)
        | .copyFail => (.FAILED, ⟨att, true, false, false⟩)
        | .deleteFail => (.FAILED, ⟨att, true, true, false⟩)
      else (.FAILED, ⟨att, false, false, false⟩)

/-! ## Main run coordinator (`__main__` block)

`validate_core_env_or_exit` raises `SystemExit` (non-zero exit) when a
core AWS variable is missing; otherwise the loop runs every slot whose
name passes the `SLOT_FILTER` check and the process exits normally after
the summary and cleanup. -/

/-- Result of one whole process run. -/
structure MainResult where
  /-- the process reached the end and exited with status 0 -/
  exitOk : Bool
  /-- names of the slots that were executed, in order -/
  executed : List String
  /-- the `run_summary` dict as an ordered association list -/
  summary : List (String × SlotStatus)
  deriving DecidableEq, Repr

/-- The slot-filter test of the main loop: a slot is skipped when
    `SLOT_FILTER` is set and differs from its name. -/
def filterKeeps (filt : Option String) (s : Slot) : Bool :=
  match filt with
  | none => true
  | some f => s.name == f

/-- The `__main__` block: env validation, then the slot loop under
    `SLOT_FILTER`, then summary and cleanup.  `envs` gives the external
    behaviour each slot's run observes, keyed by slot name. -/
def main_run (coreEnvOk : Bool) (slots : List Slot) (yt fb ig tt : Bool)
    (envs : String → SlotEnv) (filt : Option String) : MainResult :=
  if !coreEnvOk then ⟨false, [], []⟩
  else
    let sel := slots.filter (filterKeeps filt)
    ⟨true, sel.map Slot.name,
      sel.map (fun s => (s.name, (run_slot s yt fb ig tt (envs s.name)).1))⟩

/-! ## Facebook chunked upload (`fb_chunk_upload`)

Three-phase resumable upload.  The environment holds the local file's
existence and size, the start-phase response (offsets, or `none` for a
non-200 status), the sequence of transfer-phase responses, and the
finish-phase verdict.  `f.seek(start); f.read(end-start)` is modelled by
`readChunkLen`; Python's `read` with a negative size reads to EOF. -/

/-- Number of bytes `f.read(endOff - start)` yields after
    `f.seek(start)` on a file of `fileSize` bytes. -/
def readChunkLen (fileSize start endOff : Nat) : Nat :=
  if (endOff : Int) - (start : Int) < 0 then fileSize - start
  else min (endOff - start) (fileSize - start)

/-- How the transfer loop of `fb_chunk_upload` ended. -/
inductive FBLoopExit where
  /-- `start_offset == end_offset`: fall through to the finish phase -/
  | done (finalStart finalEnd : Nat)
  /-- a chunk read yielded zero bytes: `return False` -/
  | emptyChunk (start endOff : Nat)
  /-- a transfer POST returned non-200: `return False` -/
  | httpFail
  /-- the modelled environment supplied no further transfer response -/
  | exhausted
  deriving DecidableEq, Repr

/-- The `while True` transfer loop of `fb_chunk_upload`, with the number
    of transfer POSTs performed.  Each transfer response is `none` for a
    non-200 status or `some (start, end)` for the next byte range. -/
def fb_transfer_loop (fileSize : Nat) (start endOff : Nat)
    (resps : List (Option (Nat × Nat))) (cnt : Nat) : FBLoopExit × Nat :=
  if start == endOff then (.done start endOff, cnt)
  else if readChunkLen fileSize start endOff == 0 then
    (.emptyChunk start endOff, cnt)
  else
    match resps with
    | [] => (.exhausted, cnt)
    | none :: _ => (.httpFail, cnt + 1)
    | some (s, e) :: rest => fb_transfer_loop fileSize s e rest (cnt + 1)

/-- External behaviour one `fb_chunk_upload` call observes. -/
structure FBEnv where
  /-- `os.path.exists(file_path)` -/
  fileOk : Bool
  fileSize : Nat
  /-- start-phase response: `none` = non-200, else the first byte range -/
  startResp : Option (Nat × Nat)
  /-- transfer-phase responses, in order of the POSTs -/
  transferResps : List (Option (Nat × Nat))
  /-- the finish-phase POST returns 200 -/
  finishOk : Bool
  deriving DecidableEq, Repr

/-- POST counts of one `fb_chunk_upload` call. -/
structure FBTrace where
  transfers : Nat
  finishPosts : Nat
  deriving DecidableEq, Repr

/-- Result of `fb_chunk_upload`: the boolean verdict, or `exhausted`
    when the modelled environment ran out of transfer responses. -/
inductive FBOutcome where
  | res (b : Bool)
  | exhausted
  deriving DecidableEq, Repr

/-- `fb_chunk_upload(file_path, page_id, access_token, caption)`. -/
def fb_chunk_upload (env : FBEnv) : FBOutcome × FBTrace :=
  if !env.fileOk then (.res false, ⟨0, 0⟩)
  else
    match env.startResp with
    | none => (.res false, ⟨0, 0⟩)
    | some (s0, e0) =>
        match fb_transfer_loop env.fileSize s0 e0 env.transferResps 0 with
        | (.done _ _, cnt) => (.res env.finishOk, ⟨cnt, 1⟩)
        | (.emptyChunk _ _, cnt) => (.res false, ⟨cnt, 0⟩)
        | (.httpFail, cnt) => (.res false, ⟨cnt, 0⟩)
        | (.exhausted, cnt) => (.exhausted, ⟨cnt, 0⟩)

/-! ## Instagram container publish
(`upload_to_instagram_reels` / `upload_to_instagram_video`)

Create a media container, poll its `status_code` a bounded number of
times breaking on `FINISHED`, then publish.  A poll entry is the
`status_code` field of one status GET (`none` when the response had no
parsable `status_code`). -/

/-- The poll loop: `status_data` holds the last response; the loop
    breaks on `FINISHED` and otherwise runs through the whole budget.
    Returns the final `status_data.get("status_code")`. -/
def ig_poll_loop : List (Option String) → Option String → Option String
  | [], last => last
  | p :: rest, _ => if p == some "FINISHED" then p else ig_poll_loop rest p

/-- External behaviour one Instagram upload call observes. -/
structure IGEnv where
  /-- container-create response: `none` = non-200, else the body's `id` -/
  createResp : Option (Option String)
  /-- `status_code` of each status poll, in order, up to the budget -/
  polls : List (Option String)
  /-- the `media_publish` POST returns 200 -/
  publishOk : Bool
  deriving DecidableEq, Repr

/-- Number of `media_publish` POSTs issued. -/
structure IGTrace where
  publishPosts : Nat
  deriving DecidableEq, Repr

/-- Shared body of the two Instagram uploaders after their slot-type
    guard: create, poll with break-on-`FINISHED`, publish. -/
def ig_container_publish (igEnvOk : Bool) (env : IGEnv) : Bool × IGTrace :=
  if !igEnvOk then (false, ⟨0⟩)
  else
    match env.createResp with
    | none => (false, ⟨0⟩)
    | some _ =>
        if ig_poll_loop env.polls none == some "FINISHED" then
          (env.publishOk, ⟨1⟩)
        else (false, ⟨0⟩)

/-- `upload_to_instagram_reels(s3_key, meta, slot)`: short slots only. -/
def upload_to_instagram_reels (slotType : String) (igEnvOk : Bool)
    (env : IGEnv) : Bool × IGTrace :=
  if slotType != "short" then (false, ⟨0⟩)
  else ig_container_publish igEnvOk env

/-- `upload_to_instagram_video(s3_key, meta, slot)`: standard slots only. -/
def upload_to_instagram_video (slotType : String) (igEnvOk : Bool)
    (env : IGEnv) : Bool × IGTrace :=
  if slotType != "standard" then (false, ⟨0⟩)
  else ig_container_publish igEnvOk env

/-! ## TikTok adapter (`post_video_to_tiktok` / `upload_to_tiktok`)

`post_video_to_tiktok` runs creator-info query → upload init → file PUT
→ one status fetch, raising `TikTokError` on any failure, and returns
`(publish_id, status)` whatever the fetched status value is.
`upload_to_tiktok` returns `True` exactly when no exception was
raised. -/

/-- External behaviour one TikTok post observes.  `none` responses stand
    for the steps that raise `TikTokError`. -/
structure TkEnv where
  /-- creator-info query succeeded (`error.code == "ok"`) -/
  creatorOk : Bool
  /-- init response: the `publish_id`, or `none` on error -/
  initResp : Option String
  /-- the file upload PUT returned an OK status -/
  uploadOk : Bool
  /-- status fetch: the `status` field, or `none` on error -/
  statusResp : Option String
  deriving DecidableEq, Repr

/-- Number of `status/fetch` POSTs issued. -/
structure TkTrace where
  statusFetches : Nat
  deriving DecidableEq, Repr

/-- `post_video_to_tiktok(video_path, title)`: `some (publish_id,
    status)` on success, `none` when a step raised `TikTokError`. -/
def post_video_to_tiktok (env : TkEnv) :
    Option (String × String) × TkTrace :=
  if !env.creatorOk then (none, ⟨0⟩)
  else
    match env.initResp with
    | none => (none, ⟨0⟩)
    | some pid =>
        if !env.uploadOk then (none, ⟨0⟩)
        else
          match env.statusResp with
          | none => (none, ⟨1⟩)
          | some st => (some (pid, st), ⟨1⟩)

/-- `upload_to_tiktok(local_path, meta, slot_name)`: the global-enable
    guard, then `post_video_to_tiktok` with exceptions caught. -/
def upload_to_tiktok (tkEnabled : Bool) (env : TkEnv) : Bool × TkTrace :=
  if !tkEnabled then (false, ⟨0⟩)
  else
    match post_video_to_tiktok env with
    | (some _, tr) => (true, tr)
    | (none, tr) => (false, tr)

/-! ## Fixtures and helper lemmas -/

/-- Concrete short slot (clone of the first `SLOTS` entry). -/
def slot0 : Slot :=
  { name := "reel_9am", type := "short",
    srcLoc := "reels n shorts/9am content/",
    post_youtube := true, post_facebook := true,
    post_instagram := true, post_tiktok := true }

/-- Slot environment: candidate found, every adapter succeeds, archive
    succeeds. -/
def envAllOk : SlotEnv := ⟨some "k.mp4", true, true, true, true, .ok⟩

/-- Slot environment: no candidate. -/
def envNone : SlotEnv := ⟨none, false, false, false, false, .ok⟩

/-- Bound on the attempt counter returned by `yt_loop`. -/
theorem yt_loop_count_le (results : Nat → YTAttempt) :
    ∀ (remaining attempt : Nat),
      (yt_loop results attempt remaining).2 ≤ attempt + remaining - 1 := by
  intro remaining
  induction remaining with
  | zero => intro attempt; simp [yt_loop]
  | succ r ih =>
      intro attempt
      unfold yt_loop
      cases results attempt with
      | ok => simp
      | bad => simp
      | exn =>
          by_cases hr : (r == 0) = true
          · simp [hr]
          · simp only [hr, if_false]
            calc (yt_loop results (attempt + 1) r).2
                ≤ attempt + 1 + r - 1 := ih (attempt + 1)
              _ ≤ attempt + (r + 1) - 1 := by omega

/-- The `cleanup_posted_objects` page loop visits every page: its
    deletions are exactly the old objects of the concatenation of all
    pages. -/
theorem cleanup_pages_join (cutoff : Nat) (pgs : List (List S3Obj)) :
    cleanup_pages cutoff pgs
      = (pgs.flatten.filter (fun o => o.lastModified < cutoff)).map S3Obj.key := by
  induction pgs with
  | nil => rfl
  | cons pg rest ih =>
      simp [cleanup_pages, ih, List.flatten_cons, List.filter_append,
        List.map_append]

/-- The transfer loop of `fb_chunk_upload` reaches the `done` exit only
    with equal offsets. -/
theorem fb_loop_done_eq (fileSize : Nat) :
    ∀ (resps : List (Option (Nat × Nat))) (s e cnt s' e' n : Nat),
      fb_transfer_loop fileSize s e resps cnt = (.done s' e', n) →
      s' = e' := by
  intro resps
  induction resps with
  | nil =>
      intro s e cnt s' e' n h
      unfold fb_transfer_loop at h
      by_cases hse : (s == e) = true
      · rw [if_pos hse] at h
        simp only [Prod.mk.injEq, FBLoopExit.done.injEq] at h
        obtain ⟨⟨rfl, rfl⟩, -⟩ := h
        exact eq_of_beq hse
      · rw [if_neg hse] at h
        by_cases hr : (readChunkLen fileSize s e == 0) = true
        · rw [if_pos hr] at h
          simp at h
        · rw [if_neg hr] at h
          simp at h
  | cons r rest ih =>
      intro s e cnt s' e' n h
      unfold fb_transfer_loop at h
      by_cases hse : (s == e) = true
      · rw [if_pos hse] at h
        simp only [Prod.mk.injEq, FBLoopExit.done.injEq] at h
        obtain ⟨⟨rfl, rfl⟩, -⟩ := h
        exact eq_of_beq hse
      · rw [if_neg hse] at h
        by_cases hr : (readChunkLen fileSize s e == 0) = true
        · rw [if_pos hr] at h
          simp at h
        · rw [if_neg hr] at h
          cases r with
          | none => simp at h
          | some p =>
              obtain ⟨a, b⟩ := p
              exact ih a b (cnt + 1) s' e' n h

/-- With equal offsets the transfer loop exits immediately. -/
theorem fb_loop_done_at_eq (fileSize e cnt : Nat)
    (resps : List (Option (Nat × Nat))) :
    fb_transfer_loop fileSize e e resps cnt = (.done e e, cnt) := by
  unfold fb_transfer_loop
  rw [if_pos (beq_self_eq_true e)]

/-- The Instagram poll loop cannot report `FINISHED` when no poll and
    no prior status did. -/
theorem ig_poll_loop_not_finished :
    ∀ (polls : List (Option String)) (last : Option String),
      (∀ p ∈ polls, p ≠ some "FINISHED") → last ≠ some "FINISHED" →
      ig_poll_loop polls last ≠ some "FINISHED" := by
  intro polls
  induction polls with
  | nil => intro last _ hl; exact hl
  | cons p rest ih =>
      intro last h hl
      have hp : p ≠ some "FINISHED" := h p (by simp)
      have hb : (p == some "FINISHED") = false := by
        rw [beq_eq_false_iff_ne]; exact hp
      unfold ig_poll_loop
      rw [if_neg (by simp [hb])]
      exact ih p (fun q hq => h q (by simp [hq])) hp

/-- If the Instagram poll loop reports `FINISHED`, some poll (or the
    prior status) was `FINISHED`. -/
theorem ig_poll_loop_finished_mem :
    ∀ (polls : List (Option String)) (last : Option String),
      ig_poll_loop polls last = some "FINISHED" →
      some "FINISHED" ∈ polls ∨ last = some "FINISHED" := by
  intro polls
  induction polls with
  | nil => intro last h; exact Or.inr h
  | cons p rest ih =>
      intro last h
      unfold ig_poll_loop at h
      by_cases hb : (p == some "FINISHED") = true
      · exact Or.inl (by simp [eq_of_beq hb])
      · rw [if_neg hb] at h
        rcases ih p h with hm | he
        · exact Or.inl (List.mem_cons_of_mem _ hm)
        · exact Or.inl (he ▸ List.mem_cons_self _ _)

/-- No poll reporting `FINISHED` forces the shared container-publish
    body to fail without a publish POST. -/
theorem ig_container_no_finish (ok : Bool) (env : IGEnv)
    (h : ∀ p ∈ env.polls, p ≠ some "FINISHED") :
    ig_container_publish ok env = (false, ⟨0⟩) := by
  have hne := ig_poll_loop_not_finished env.polls none h (by simp)
  have hb : (ig_poll_loop env.polls none == some "FINISHED") = false := by
    rw [beq_eq_false_iff_ne]; exact hne
  unfold ig_container_publish
  cases ok with
  | false => rfl
  | true =>
      simp only [Bool.not_true, Bool.false_eq_true, if_false]
      cases env.createResp with
      | none => rfl
      | some _ => simp [hb]

/-- A publish POST from the container-publish body implies some poll
    reported `FINISHED`. -/
theorem ig_container_posts_finished (ok : Bool) (env : IGEnv)
    (h : (ig_container_publish ok env).2.publishPosts ≠ 0) :
    some "FINISHED" ∈ env.polls := by
  unfold ig_container_publish at h
  cases ok with
  | false => simp at h
  | true =>
      simp only [Bool.not_true, Bool.false_eq_true, if_false] at h
      cases hcr : env.createResp with
      | none => rw [hcr] at h; simp at h
      | some c =>
          rw [hcr] at h
          by_cases hb : (ig_poll_loop env.polls none == some "FINISHED") = true
          · rcases ig_poll_loop_finished_mem env.polls none (eq_of_beq hb)
              with hm | he
            · exact hm
            · exact absurd he (by simp)
          · rw [if_neg hb] at h
            simp at h

/-! ## Claims -/

/-- Claim C1: when a slot run finds a candidate, `run_slot` calls the
archive step iff every destination enabled for the slot reported
success; the artifact is copied to `posted/` and deleted from its source
iff additionally the archive op ran without error, in which case the
verdict is SUCCESS; an archive error after all enabled destinations
succeeded downgrades the verdict to FAILED. -/
theorem C1_archive_iff_enabled_success (slot : Slot) (yt fb ig tt : Bool)
    (env : SlotEnv) (k : String) (hc : env.candidate = some k) :
    ((run_slot slot yt fb ig tt env).2.archiveAttempted
        = enabledAllOk slot yt fb ig tt env) ∧
    (((run_slot slot yt fb ig tt env).2.copied = true ∧
      (run_slot slot yt fb ig tt env).2.deleted = true) ↔
      (enabledAllOk slot yt fb ig tt env = true ∧
       env.archiveRes = .ok)) ∧
    ((run_slot slot yt fb ig tt env).1 = .SUCCESS ↔
      (enabledAllOk slot yt fb ig tt env = true ∧
       env.archiveRes = .ok)) ∧
    ((enabledAllOk slot yt fb ig tt env = true ∧ env.archiveRes ≠ .ok) →
      (run_slot slot yt fb ig tt env).1 = .FAILED) := by
  cases hall : enabledAllOk slot yt fb ig tt env <;>
    cases har : env.archiveRes <;>
      simp [run_slot, hc, hall, har]

/-- Claim C1 witness: the theorem applied to a concrete slot and an
environment where every destination succeeds and archival works. -/
theorem C1_archive_iff_enabled_success_witness :
    ((run_slot slot0 true true true true envAllOk).2.archiveAttempted
        = enabledAllOk slot0 true true true true envAllOk) ∧
    (((run_slot slot0 true true true true envAllOk).2.copied = true ∧
      (run_slot slot0 true true true true envAllOk).2.deleted = true) ↔
      (enabledAllOk slot0 true true true true envAllOk = true ∧
       envAllOk.archiveRes = .ok)) ∧
    ((run_slot slot0 true true true true envAllOk).1 = .SUCCESS ↔
      (enabledAllOk slot0 true true true true envAllOk = true ∧
       envAllOk.archiveRes = .ok)) ∧
    ((enabledAllOk slot0 true true true true envAllOk = true ∧
      envAllOk.archiveRes ≠ .ok) →
      (run_slot slot0 true true true true envAllOk).1 = .FAILED) :=
  C1_archive_iff_enabled_success slot0 true true true true envAllOk
    "k.mp4" rfl

/-- Claim C2 counterexample: a non-empty candidate list holding an
`.mp4` object while no candidate's identifier contains today's date
token satisfies the claim's precondition, and the claim then demands
the most-recently-modified `.mp4` candidate — which the spec-side
latest-mode selector indeed returns (`some "clip.mp4"`) — yet the
source's selector returns `none`: no fallback occurs. -/
theorem C2_counterexample :
    get_latest_video_key ⟨[[⟨"clip.mp4", 5⟩, ⟨"notes.txt", 9⟩]]⟩
        "2025-06-01" = none ∧
    select_latest_mode_spec [⟨"clip.mp4", 5⟩, ⟨"notes.txt", 9⟩]
        "2025-06-01" = some "clip.mp4" ∧
    ([⟨"clip.mp4", 5⟩, ⟨"notes.txt", 9⟩] : List S3Obj) ≠ [] ∧
    strEndsWith (lowerStr "clip.mp4") ".mp4" = true ∧
    (∀ o ∈ ([⟨"clip.mp4", 5⟩, ⟨"notes.txt", 9⟩] : List S3Obj),
        strContainsSub o.key "2025-06-01" = false) := by
  decide

/-- Claim C2 (amended): when no `.mp4` candidate's basename contains
today's date token, `get_latest_video_key` returns `none`; the selector
has no fallback to the most-recently-modified candidate. -/
theorem C2_no_today_match_returns_none (store : PageStore) (today : String)
    (h : ∀ o ∈ store.pages.headD [],
        strEndsWith (lowerStr o.key) ".mp4" = true →
        strContainsSub (basename o.key) today = false) :
    get_latest_video_key store today = none := by
  unfold get_latest_video_key
  by_cases he : (store.pages.headD []).isEmpty = true
  · rw [if_pos he]
  · rw [if_neg he]
    have hnil : todays_mp4s (store.pages.headD []) today = [] := by
      unfold todays_mp4s
      rw [List.filter_eq_nil_iff]
      intro k hk
      rw [List.mem_filter] at hk
      obtain ⟨hkm, hmp4⟩ := hk
      rw [List.mem_map] at hkm
      obtain ⟨o, ho, rfl⟩ := hkm
      rw [h o ho hmp4]
      simp
    rw [hnil]
    rfl

/-- Claim C2 (amended) witness: the amended theorem at a concrete store
whose only object is an `.mp4` without today's token. -/
theorem C2_no_today_match_returns_none_witness :
    get_latest_video_key ⟨[[⟨"clip.mp4", 5⟩]]⟩ "2025-07-07" = none :=
  C2_no_today_match_returns_none ⟨[[⟨"clip.mp4", 5⟩]]⟩ "2025-07-07"
    (by decide)

/-- Claim C3 counterexample: for `"2025-06-01 - My Title.mp4"` the
extracted title is the whole basename with the extension stripped, not
the remainder after the date-then-separator pattern. -/
theorem C3_counterexample :
    (parse_metadata_from_key "2025-06-01 - My Title.mp4"
        "2026-10-12").title = "2025-06-01 - My Title" ∧
    ("2025-06-01 - My Title" : String) ≠ "My Title" := by
  refine ⟨rfl, ?_⟩
  decide

/-- Claim C3 (amended): the extracted date of
`"2025-06-01 - My Title.mp4"` is `"2025-06-01"` and its title is the
basename with `.mp4` stripped (`"2025-06-01 - My Title"`, the date not
removed); for an identifier with no date pattern the date is today and
the title is the identifier with its extension stripped. -/
theorem C3_metadata_roundtrip (today : String) :
    (parse_metadata_from_key "2025-06-01 - My Title.mp4" today).date
        = "2025-06-01" ∧
    (parse_metadata_from_key "2025-06-01 - My Title.mp4" today).title
        = "2025-06-01 - My Title" ∧
    (parse_metadata_from_key "noconvention.mp4" today).date = today ∧
    (parse_metadata_from_key "noconvention.mp4" today).title
        = "noconvention" :=
  ⟨rfl, rfl, rfl, rfl⟩

/-- Claim C4 counterexample: an operation that always completes with a
false verdict (no exception) is invoked exactly once by the YouTube
retry loop with 3 max attempts — not three times as the claim states. -/
theorem C4_counterexample :
    upload_to_youtube_retry (fun _ => YTAttempt.bad) 3 = (false, 1) ∧
    (upload_to_youtube_retry (fun _ => YTAttempt.bad) 3).2 ≠ 3 := by
  decide

/-- Claim C4 (amended): the YouTube retry loop retries only when the
operation raises: a non-raising false verdict returns false after
exactly one invocation; an operation that throws on attempt 1 and
returns true on attempt 2 is invoked exactly twice and yields true; no
exception propagates (the loop is a total function) and the operation is
invoked at most `maxAttempts` times. -/
theorem C4_retry_on_exception_only :
    (∀ results : Nat → YTAttempt, results 1 = .bad →
        upload_to_youtube_retry results 3 = (false, 1)) ∧
    (∀ results : Nat → YTAttempt, results 1 = .exn → results 2 = .ok →
        upload_to_youtube_retry results 3 = (true, 2)) ∧
    (∀ (results : Nat → YTAttempt) (m : Nat),
        (upload_to_youtube_retry results m).2 ≤ m) := by
  refine ⟨?_, ?_, ?_⟩
  · intro results h
    simp [upload_to_youtube_retry, yt_loop, h]
  · intro results h1 h2
    simp [upload_to_youtube_retry, yt_loop, h1, h2]
  · intro results m
    have := yt_loop_count_le results m 1
    unfold upload_to_youtube_retry
    omega

/-- Claim C4 (amended) witness: the first conjunct applied to the
always-false operation. -/
theorem C4_retry_on_exception_only_witness :
    upload_to_youtube_retry (fun _ => YTAttempt.bad) 3 = (false, 1) :=
  C4_retry_on_exception_only.1 (fun _ => YTAttempt.bad) rfl

/-- Claim C5 counterexample: with a `SLOT_FILTER` matching no configured
slot, the main run completes with a normal (zero) exit and an empty run
summary — it does not abort as a fatal configuration error. -/
theorem C5_counterexample :
    main_run true SLOTS true true true true (fun _ => envNone)
        (some "no_such_slot") = ⟨true, [], []⟩ ∧
    (∀ s ∈ SLOTS, s.name ≠ "no_such_slot") := by
  decide

/-- Claim C5 (amended): a `SLOT_FILTER` value matching no configured
slot silently runs zero slots: the process executes no slot, produces an
empty summary, and exits normally. -/
theorem C5_unmatched_filter_runs_no_slots (slots : List Slot)
    (yt fb ig tt : Bool) (envs : String → SlotEnv) (f : String)
    (h : ∀ s ∈ slots, s.name ≠ f) :
    main_run true slots yt fb ig tt envs (some f) = ⟨true, [], []⟩ := by
  have hf : slots.filter (filterKeeps (some f)) = [] := by
    rw [List.filter_eq_nil_iff]
    intro s hs
    simp only [filterKeeps, beq_iff_eq]
    exact h s hs
  simp [main_run, hf]

/-- Claim C5 (amended) witness: the amended theorem on the real `SLOTS`
table with an unrecognized filter. -/
theorem C5_unmatched_filter_runs_no_slots_witness :
    main_run true SLOTS true true true true (fun _ => envNone)
        (some "reel_noon") = ⟨true, [], []⟩ :=
  C5_unmatched_filter_runs_no_slots SLOTS true true true true
    (fun _ => envNone) "reel_noon" (by decide)

/-- Claim C6 counterexample: a today-dated `.mp4` on the second listing
page is overlooked by the selector (which returns `none`), though the
same object on the first page is found — the candidate listing is not
drained across pages. -/
theorem C6_counterexample :
    get_latest_video_key
        ⟨[[⟨"p/junk.txt", 1⟩], [⟨"p/2025-06-01 a.mp4", 5⟩]]⟩
        "2025-06-01" = none ∧
    get_latest_video_key ⟨[[⟨"p/2025-06-01 a.mp4", 5⟩]]⟩ "2025-06-01"
        = some "p/2025-06-01 a.mp4" := by
  decide

/-- Claim C6 (amended): the cleanup enumeration drains every page — its
deletions are exactly the objects older than the cutoff in the
concatenation of all pages — but the candidate listing issues a single
un-continued list call, so its result depends only on the first page. -/
theorem C6_cleanup_drains_selector_does_not (store : PageStore)
    (cutoff : Nat) (today : String) :
    cleanup_posted_objects store cutoff
      = (store.pages.flatten.filter
          (fun o => o.lastModified < cutoff)).map S3Obj.key ∧
    get_latest_video_key store today
      = get_latest_video_key ⟨[store.pages.headD []]⟩ today :=
  ⟨cleanup_pages_join cutoff store.pages, rfl⟩

/-- Claim C7: the transfer loop of `fb_chunk_upload` terminates exactly
when the server-returned start offset equals the end offset; on a
100-byte file with start response `[0,100)` it performs one transfer
POST and one finish POST (and with chunked responses, one POST per
chunk); a zero-byte chunk read while `start != end` aborts with a false
result before any further POST. -/
theorem C7_chunked_upload_termination :
    (fb_chunk_upload ⟨true, 100, some (0, 100), [some (100, 100)], true⟩
        = (.res true, ⟨1, 1⟩)) ∧
    (fb_chunk_upload ⟨true, 100, some (0, 40),
        [some (40, 80), some (80, 100), some (100, 100)], true⟩
        = (.res true, ⟨3, 1⟩)) ∧
    (∀ (fileSize : Nat) (resps : List (Option (Nat × Nat)))
        (s e cnt s' e' n : Nat),
        fb_transfer_loop fileSize s e resps cnt = (.done s' e', n) →
        s' = e') ∧
    (∀ (fileSize e cnt : Nat) (resps : List (Option (Nat × Nat))),
        fb_transfer_loop fileSize e e resps cnt = (.done e e, cnt)) ∧
    (∀ (env : FBEnv) (s e : Nat), env.fileOk = true →
        env.startResp = some (s, e) → (s == e) = false →
        readChunkLen env.fileSize s e = 0 →
        fb_chunk_upload env = (.res false, ⟨0, 0⟩)) := by
  refine ⟨by decide, by decide, fb_loop_done_eq, fb_loop_done_at_eq, ?_⟩
  intro env s e hok hstart hse hread
  unfold fb_chunk_upload
  rw [hok, hstart]
  have hloop : fb_transfer_loop env.fileSize s e env.transferResps 0
      = (.emptyChunk s e, 0) := by
    unfold fb_transfer_loop
    rw [if_neg (by simp [hse]), if_pos (by simp [hread])]
  simp [hloop]

/-- Claim C7 witness: the zero-byte-chunk conjunct applied to a start
response whose range lies past the end of a 100-byte file. -/
theorem C7_chunked_upload_termination_witness :
    fb_chunk_upload ⟨true, 100, some (100, 120), [some (0, 0)], true⟩
        = (.res false, ⟨0, 0⟩) :=
  C7_chunked_upload_termination.2.2.2.2
    ⟨true, 100, some (100, 120), [some (0, 0)], true⟩ 100 120
    rfl rfl (by decide) (by decide)

/-- Claim C8: if no status poll within the poll budget reports
`FINISHED`, both Instagram uploaders return `false` without issuing the
`media_publish` POST; and any run that issues a publish POST had a poll
observe `FINISHED`. -/
theorem C8_publish_only_after_finished (env : IGEnv)
    (h : ∀ p ∈ env.polls, p ≠ some "FINISHED") :
    (∀ (ty : String) (ok : Bool),
        upload_to_instagram_reels ty ok env = (false, ⟨0⟩)) ∧
    (∀ (ty : String) (ok : Bool),
        upload_to_instagram_video ty ok env = (false, ⟨0⟩)) ∧
    (∀ (env' : IGEnv) (ty : String) (ok : Bool),
        (upload_to_instagram_reels ty ok env').2.publishPosts ≠ 0 →
        some "FINISHED" ∈ env'.polls) ∧
    (∀ (env' : IGEnv) (ty : String) (ok : Bool),
        (upload_to_instagram_video ty ok env').2.publishPosts ≠ 0 →
        some "FINISHED" ∈ env'.polls) := by
  have hreels : ∀ (env' : IGEnv) (ty : String) (ok : Bool),
      (upload_to_instagram_reels ty ok env').2.publishPosts ≠ 0 →
      some "FINISHED" ∈ env'.polls := by
    intro env' ty ok hp
    unfold upload_to_instagram_reels at hp
    by_cases hty : (ty != "short") = true
    · rw [if_pos hty] at hp; simp at hp
    · rw [if_neg hty] at hp
      exact ig_container_posts_finished ok env' hp
  have hvideo : ∀ (env' : IGEnv) (ty : String) (ok : Bool),
      (upload_to_instagram_video ty ok env').2.publishPosts ≠ 0 →
      some "FINISHED" ∈ env'.polls := by
    intro env' ty ok hp
    unfold upload_to_instagram_video at hp
    by_cases hty : (ty != "standard") = true
    · rw [if_pos hty] at hp; simp at hp
    · rw [if_neg hty] at hp
      exact ig_container_posts_finished ok env' hp
  refine ⟨?_, ?_, hreels, hvideo⟩
  · intro ty ok
    unfold upload_to_instagram_reels
    by_cases hty : (ty != "short") = true
    · rw [if_pos hty]
    · rw [if_neg hty]
      exact ig_container_no_finish ok env h
  · intro ty ok
    unfold upload_to_instagram_video
    by_cases hty : (ty != "standard") = true
    · rw [if_pos hty]
    · rw [if_neg hty]
      exact ig_container_no_finish ok env h

/-- Claim C8 witness: the reels conjunct at a poll budget of ten
`IN_PROGRESS` polls. -/
theorem C8_publish_only_after_finished_witness :
    upload_to_instagram_reels "short" true
        ⟨some (some "cid"), List.replicate 10 (some "IN_PROGRESS"), true⟩
        = (false, ⟨0⟩) :=
  (C8_publish_only_after_finished
      ⟨some (some "cid"), List.replicate 10 (some "IN_PROGRESS"), true⟩
      (by decide)).1 "short" true

/-- Claim C9: a slot that finds a candidate while every globally
enabled-flag is false performs zero publish attempts, archives and
deletes the artifact, and reports SUCCESS — success is vacuous over the
empty set of enabled destinations. -/
theorem C9_disabled_destinations_vacuous_success (slot : Slot)
    (env : SlotEnv) (k : String) (hc : env.candidate = some k)
    (ha : env.archiveRes = .ok) :
    run_slot slot false false false false env
      = (.SUCCESS, ⟨[], true, true, true⟩) := by
  simp [run_slot, hc, ha, enabledAllOk, attemptedDests]

/-- Claim C9 witness: the theorem at the concrete first slot with every
destination globally disabled. -/
theorem C9_disabled_destinations_vacuous_success_witness :
    run_slot slot0 false false false false
        ⟨some "k.mp4", true, true, true, true, .ok⟩
      = (.SUCCESS, ⟨[], true, true, true⟩) :=
  C9_disabled_destinations_vacuous_success slot0
    ⟨some "k.mp4", true, true, true, true, .ok⟩ "k.mp4" rfl rfl

/-- Claim C10: the TikTok adapter reports success as soon as the
creator-info query, the upload init, the file PUT, and one status fetch
complete without error, whatever status string that single fetch
returned; exactly one status fetch is performed, so `true` does not
imply the video reached a terminal publish state. -/
theorem C10_tiktok_single_status_fetch (env : TkEnv) (pid st : String)
    (hcr : env.creatorOk = true) (hin : env.initResp = some pid)
    (hup : env.uploadOk = true) (hst : env.statusResp = some st) :
    post_video_to_tiktok env = (some (pid, st), ⟨1⟩) ∧
    upload_to_tiktok true env = (true, ⟨1⟩) := by
  have hp : post_video_to_tiktok env = (some (pid, st), ⟨1⟩) := by
    simp [post_video_to_tiktok, hcr, hin, hup, hst]
  refine ⟨hp, ?_⟩
  simp [upload_to_tiktok, hp]

/-- Claim C10 witness: the theorem at an environment whose single
status fetch reports `"FAILED"` — the adapter still returns `true`. -/
theorem C10_tiktok_single_status_fetch_witness :
    post_video_to_tiktok ⟨true, some "v123", true, some "FAILED"⟩
        = (some ("v123", "FAILED"), ⟨1⟩) ∧
    upload_to_tiktok true ⟨true, some "v123", true, some "FAILED"⟩
        = (true, ⟨1⟩) :=
  C10_tiktok_single_status_fetch
    ⟨true, some "v123", true, some "FAILED"⟩ "v123" "FAILED"
    rfl rfl rfl rfl

end AutoPoster
